import Mathlib

/-!
Verification of the cli-agent-manager delegation, messaging, inbox, flow-daemon
and session-creation logic.

The Lean definitions below are a shallow embedding of the Python handlers in
`src/cli_agent_manager/api/main.py` and of the synchronous tool wrapper in
`src/cli_agent_manager/agent_tools/http_server.py`.  External collaborators
(terminal service, database, the multiplexer) are modelled as oracle fields of
an environment record: each field records the outcome (value, timeout, or
raised exception) of the corresponding external call, and each handler is a
pure function of its request and that environment.  Handlers additionally
return a trace of the externally visible steps they perform, so ordering
claims can be stated as equalities on traces.
-/

/-- Python truthiness for an optional string: `None` and `""` are falsy. -/
def pyTruthy : Option String → Bool
  | none => false
  | some s => s != ""

/-- ASCII lower-casing of one character (model of `str.lower` per character). -/
def lowerChar (c : Char) : Char :=
  if 65 ≤ c.toNat ∧ c.toNat ≤ 90 then Char.ofNat (c.toNat + 32) else c

/-- Model of Python `str.lower()` for ASCII strings. -/
def pyLower (s : String) : String := ⟨s.data.map lowerChar⟩

/-- Terminal lifecycle status (`TerminalStatus` in `models/terminal.py`;
the values used by the handlers are `IDLE` and `COMPLETED`). -/
inductive TerminalStatus
  | initializing
  | idle
  | busy
  | completed
  | errorStatus
deriving DecidableEq, Repr

/-- Outcome of the terminal-creation call `_create_terminal_direct` as awaited
through `asyncio.wait_for(..., timeout=30.0)`: the created terminal id and
provider, an `asyncio.TimeoutError`, or some other raised exception. -/
inductive CreateOutcome
  | ok (terminalId provider : String)
  | timeoutErr
  | raised (excText : String)
deriving DecidableEq, Repr

/-- An externally visible step of the handoff / assign chains, with the bound
(in seconds) each blocking step is given. -/
inductive HStep
  | createT (timeoutSecs : Nat)
  | waitStatus (target : TerminalStatus) (timeoutSecs : Nat) (pollIntervalSecs : Option Nat)
  | sleepStep (secs : Nat)
  | sendInputStep (msg : String)
  | readOutputStep (mode : String)
  | exitCommandStep
deriving DecidableEq, Repr

/-- `HandoffRequest` from `api/models.py` (timeout validated to 1..3600,
default 600). -/
structure HandoffRequest where
  agent_profile : String
  message : String
  timeout : Nat
deriving DecidableEq, Repr

/-- `HandoffResponse` from `api/models.py`. -/
structure HandoffResponse where
  success : Bool
  message : String
  output : Option String
  terminal_id : Option String
deriving DecidableEq, Repr

/-- Outcomes of the external calls made by `handoff_agent`, in program order:
terminal creation, the IDLE wait, input injection (`none` = succeeded,
`some e` = raised with text `e`), the COMPLETED wait, the output read
(caught locally on failure), and the exit-command request (failure only
logged).  `execTimeText` stands for the formatted wall-clock duration
interpolated into the success message. -/
structure HandoffEnv where
  create : CreateOutcome
  idleReached : Bool
  sendInput : Option String
  completedReached : Bool
  readOutput : Except String String
  exitSend : Option String
  execTimeText : String
deriving Repr

/-- Shallow embedding of `handoff_agent` (`api/main.py`, lines 497-621).
Returns the `HandoffResponse` together with the trace of steps performed. -/
def handoff_agent (req : HandoffRequest) (env : HandoffEnv) :
    HandoffResponse × List HStep :=
  match env.create with
  | .timeoutErr =>
      ({ success := false,
         message := "Terminal creation timed out after 30 seconds",
         output := none, terminal_id := none },
       [.createT 30])
  | .raised e =>
      ({ success := false,
         message := "Failed to create terminal: " ++ e,
         output := none, terminal_id := none },
       [.createT 30])
  | .ok tid provider =>
      if env.idleReached then
        match env.sendInput with
        | some e =>
            -- the exception from `_send_direct_input_direct` is caught by the
            -- outer `except`, with `terminal_id` already bound to `tid`
            ({ success := false,
               message := "Handoff failed: " ++ e,
               output := none, terminal_id := some tid },
             [.createT 30, .waitStatus .idle 30 none, .sleepStep 2,
              .sendInputStep req.message])
        | none =>
            if env.completedReached then
              -- a failed output read is caught locally and only replaces the
              -- output text; a failed exit request is caught and only logged
              let output :=
                match env.readOutput with
                | .ok o => o
                | .error e => "Failed to retrieve output: " ++ e
              ({ success := true,
                 message := "Successfully handed off to " ++ req.agent_profile
                   ++ " (" ++ provider ++ ") in " ++ env.execTimeText ++ "s",
                 output := some output, terminal_id := some tid },
               [.createT 30, .waitStatus .idle 30 none, .sleepStep 2,
                .sendInputStep req.message,
                .waitStatus .completed req.timeout (some 1),
                .readOutputStep "last", .exitCommandStep])
            else
              ({ success := false,
                 message := "Handoff timed out after " ++ toString req.timeout
                   ++ " seconds",
                 output := none, terminal_id := some tid },
               [.createT 30, .waitStatus .idle 30 none, .sleepStep 2,
                .sendInputStep req.message,
                .waitStatus .completed req.timeout (some 1)])
      else
        ({ success := false,
           message := "Terminal " ++ tid
             ++ " did not reach IDLE status within 30 seconds",
           output := none, terminal_id := some tid },
         [.createT 30, .waitStatus .idle 30 none])

/-- `AssignRequest` from `api/models.py`. -/
structure AssignRequest where
  agent_profile : String
  message : String
deriving DecidableEq, Repr

/-- `AssignResponse` from `api/models.py`. -/
structure AssignResponse where
  success : Bool
  terminal_id : Option String
  message : String
deriving DecidableEq, Repr

/-- Outcomes of the external calls made by `assign_agent`: terminal creation
and input injection (`none` = succeeded, `some e` = raised with text `e`). -/
structure AssignEnv where
  create : CreateOutcome
  sendInput : Option String
deriving DecidableEq, Repr

/-- Shallow embedding of `assign_agent` (`api/main.py`, lines 624-689).
Returns the `AssignResponse` together with the trace of steps performed.
Note the outer `except` handler builds its response with a literal
`terminal_id=None`, regardless of whether a terminal was already created. -/
def assign_agent (req : AssignRequest) (env : AssignEnv) :
    AssignResponse × List HStep :=
  match env.create with
  | .timeoutErr =>
      ({ success := false, terminal_id := none,
         message := "Assignment timed out after 30 seconds during terminal creation" },
       [.createT 30])
  | .raised e =>
      ({ success := false, terminal_id := none,
         message := "Assignment failed: " ++ e },
       [.createT 30])
  | .ok tid _provider =>
      match env.sendInput with
      | some e =>
          ({ success := false, terminal_id := none,
             message := "Assignment failed: " ++ e },
           [.createT 30, .sendInputStep req.message])
      | none =>
          ({ success := true, terminal_id := some tid,
             message := "Task assigned to " ++ req.agent_profile
               ++ " (terminal: " ++ tid ++ ")" },
           [.createT 30, .sendInputStep req.message])

/-- `SendMessageRequest` from `api/models.py` (`sender_id` optional). -/
structure SendMessageRequest where
  receiver_id : String
  message : String
  sender_id : Option String
deriving DecidableEq, Repr

/-- `SendMessageResponse` from `api/models.py`. -/
structure SendMessageResponse where
  success : Bool
  message_id : Option Nat
  sender_id : Option String
  receiver_id : Option String
  created_at : Option String
  error : Option String
deriving DecidableEq, Repr

/-- A persisted inbox row as returned by `create_inbox_message`. -/
structure InboxMsgRow where
  id : Nat
  sender_id : String
  receiver_id : String
  created_at : String
deriving DecidableEq, Repr

/-- A raised Python exception, distinguishing `ValueError` (caught by its own
handler in several endpoints) from every other exception kind. -/
inductive PyExc
  | valueError (text : String)
  | otherExc (text : String)
deriving DecidableEq, Repr

/-- The text `str(e)` of an exception. -/
def PyExc.text : PyExc → String
  | .valueError t => t
  | .otherExc t => t

/-- Sender-identity resolution of `send_message_to_agent` (`api/main.py`,
lines 714-719): `sender_id = request.sender_id or os.getenv("TRON_TERMINAL_ID")`
followed by `if not sender_id: sender_id = "unknown"`, with Python
truthiness (both `None` and `""` are falsy). -/
def resolveSender (reqSender envVar : Option String) : String :=
  let s : Option String := if pyTruthy reqSender then reqSender else envVar
  if pyTruthy s then s.getD "" else "unknown"

/-- Outcomes of the external calls made by `send_message_to_agent`:
the ambient `TRON_TERMINAL_ID` value, the `create_inbox_message` insert, and
the `check_and_send_pending_messages` delivery attempt (`none` = returned
normally, `some e` = raised `e`). -/
structure SendMessageEnv where
  tronTerminalId : Option String
  createMsg : Except PyExc InboxMsgRow
  deliver : Option PyExc
deriving Repr

/-- Externally visible steps of `send_message_to_agent`: one inbox enqueue
(`create_inbox_message`) and one delivery attempt
(`check_and_send_pending_messages`). -/
inductive MStep
  | enqueue (sender receiver text : String)
  | deliverAttempt (receiver : String)
deriving DecidableEq, Repr

/-- Shallow embedding of `send_message_to_agent` (`api/main.py`, lines
692-759).  Returns the `SendMessageResponse` together with the trace of
enqueue / delivery steps performed. -/
def send_message_to_agent (req : SendMessageRequest) (env : SendMessageEnv) :
    SendMessageResponse × List MStep :=
  let sender := resolveSender req.sender_id env.tronTerminalId
  match env.createMsg with
  | .error e =>
      ({ success := false, message_id := none, sender_id := none,
         receiver_id := some req.receiver_id, created_at := none,
         error := some (match e with
           | .valueError t => t
           | .otherExc t => "Failed to send message: " ++ t) },
       [.enqueue sender req.receiver_id req.message])
  | .ok row =>
      match env.deliver with
      | some e =>
          ({ success := false, message_id := none, sender_id := none,
             receiver_id := some req.receiver_id, created_at := none,
             error := some (match e with
               | .valueError t => t
               | .otherExc t => "Failed to send message: " ++ t) },
           [.enqueue sender req.receiver_id req.message,
            .deliverAttempt req.receiver_id])
      | none =>
          ({ success := true, message_id := some row.id,
             sender_id := some row.sender_id,
             receiver_id := some row.receiver_id,
             created_at := some row.created_at, error := none },
           [.enqueue sender req.receiver_id req.message,
            .deliverAttempt req.receiver_id])

/-- A mutation of the process-wide environment variable `TRON_TERMINAL_ID`. -/
inductive EnvMutation
  | setVar (value : String)
  | delVar
deriving DecidableEq, Repr

/-- Result of the synchronous `send_message` tool wrapper model: the value of
`TRON_TERMINAL_ID` seen by the nested `async_send_message` call, the list of
environment-variable mutations performed, and the final value of the
variable after the `finally` block. -/
structure ToolsSendMessageEffects where
  senderSeenByCall : Option String
  mutations : List EnvMutation
  finalVar : Option String
deriving DecidableEq, Repr

/-- Shallow embedding of the environment-variable handling in `send_message`
(`agent_tools/http_server.py`, lines 72-102).  `initialVar` models
`os.environ.get("TRON_TERMINAL_ID")` on entry; the wrapper sets the variable
to `sender_id` when one is supplied (truthy), runs the nested call, then in
`finally` restores the original value when it was truthy, or deletes the
variable when it had been set for a supplied `sender_id`. -/
def tools_send_message_env (sender_id : Option String) (initialVar : Option String) :
    ToolsSendMessageEffects :=
  let duringCall : Option String :=
    if pyTruthy sender_id then sender_id else initialVar
  let setOps : List EnvMutation :=
    if pyTruthy sender_id then [.setVar (sender_id.getD "")] else []
  if pyTruthy initialVar then
    { senderSeenByCall := duringCall,
      mutations := setOps ++ [.setVar (initialVar.getD "")],
      finalVar := initialVar }
  else if pyTruthy sender_id && duringCall.isSome then
    { senderSeenByCall := duringCall,
      mutations := setOps ++ [.delVar],
      finalVar := none }
  else
    { senderSeenByCall := duringCall,
      mutations := setOps,
      finalVar := duringCall }

/-- Inbox message status (`MessageStatus` in `models/inbox.py`). -/
inductive MessageStatus
  | pending
  | delivered
  | failed
deriving DecidableEq, Repr

/-- `MessageStatus(s)` for a lower-cased string: the enum constructor raises
`ValueError` for an unknown value, modelled as `none`. -/
def messageStatusOf : String → Option MessageStatus
  | "pending" => some .pending
  | "delivered" => some .delivered
  | "failed" => some .failed
  | _ => none

/-- A persisted inbox row as read back by `get_inbox_messages`. -/
structure DbInboxMsg where
  id : Nat
  sender_id : String
  receiver_id : String
  message : String
  status : MessageStatus
  created_at : String
deriving DecidableEq, Repr

/-- `InboxMessagesResponse` from `api/models.py`. -/
structure InboxMessagesResponse where
  messages : List DbInboxMsg
  total : Nat
  receiver_id : String
deriving DecidableEq, Repr

/-- Exceptions in flight inside `get_inbox_messages_endpoint`. -/
inductive InboxExc
  | httpException (code : Nat) (detail : String)
  | valueErr (text : String)
  | attributeErr (text : String)
  | otherErr (text : String)
deriving DecidableEq, Repr

/-- The text of an in-flight exception, as interpolated by `str(e)`. -/
def InboxExc.text : InboxExc → String
  | .httpException _ d => d
  | .valueErr t => t
  | .attributeErr t => t
  | .otherErr t => t

/-- How the handler invocation ends, as seen by the HTTP framework: a normal
response, an `HTTPException` carrying a status code, or a non-HTTP exception
escaping the handler (which FastAPI converts into a plain 500 response). -/
inductive EndpointOutcome
  | ok (resp : InboxMessagesResponse)
  | httpError (code : Nat) (detail : String)
  | uncaughtExc (text : String)
deriving DecidableEq, Repr

/-- The HTTP status code the client observes for each outcome; an uncaught
non-HTTP exception becomes a 500 Internal Server Error at the framework. -/
def httpStatusOf : EndpointOutcome → Nat
  | .ok _ => 200
  | .httpError code _ => code
  | .uncaughtExc _ => 500

/-- Attribute lookup `status.<attr>` inside `get_inbox_messages_endpoint`.
The handler parameter `status` (the query string, `None` or a `str`) shadows
the imported `fastapi.status` module for the whole function body, so every
`status.HTTP_...` expression looks the attribute up on the query value.
Neither Python `None` nor `str` has any `HTTP_...` attribute, so the lookup
raises `AttributeError`. -/
def statusParamGetattr (statusVal : Option String) (attr : String) :
    Except String Nat :=
  Except.error ((match statusVal with
    | none => "NoneType"
    | some _ => "str") ++ " object has no attribute " ++ attr)

/-- The limit clamp of `get_inbox_messages_endpoint` (`api/main.py`, line
1105): `limit = min(max(1, limit), 100)`. -/
def clampLimit (limit : Int) : Int := min (max 1 limit) 100

/-- Body of the outer `try` of `get_inbox_messages_endpoint` (`api/main.py`,
lines 1092-1127): validate the `status` filter, clamp `limit`, query the
database (`db`, which may itself raise), and build the response.  Building
the intended 400 `HTTPException` for an invalid status first evaluates
`status.HTTP_400_BAD_REQUEST`, which raises `AttributeError` instead (see
`statusParamGetattr`). -/
def inboxEndpointBody (terminal_id : String) (status : Option String) (limit : Int)
    (db : Option MessageStatus → Int → Except InboxExc (List DbInboxMsg)) :
    Except InboxExc InboxMessagesResponse :=
  let validated : Except InboxExc (Option MessageStatus) :=
    if pyTruthy status && (pyLower (status.getD "") != "all") then
      match messageStatusOf (pyLower (status.getD "")) with
      | some ms => .ok (some ms)
      | none =>
          match statusParamGetattr status "HTTP_400_BAD_REQUEST" with
          | .ok code =>
              .error (.httpException code
                ("Invalid status " ++ status.getD ""
                  ++ ". Must be one of: pending, delivered, failed, all"))
          | .error a => .error (.attributeErr a)
    else .ok none
  match validated with
  | .error e => .error e
  | .ok message_status =>
      match db message_status (clampLimit limit) with
      | .error e => .error e
      | .ok msgs =>
          .ok { messages := msgs, total := msgs.length,
                receiver_id := terminal_id }

/-- The `except` chain of `get_inbox_messages_endpoint` (`api/main.py`, lines
1129-1135).  A `ValueError` is caught by its own handler, every other
exception (including an in-flight `HTTPException` or `AttributeError`) by
`except Exception`; both handlers build their `HTTPException` by evaluating
`status.HTTP_...` first, which raises `AttributeError` (the parameter still
shadows the module there), and an exception raised inside an `except` clause
is not caught by a sibling clause of the same `try`, so it escapes the
handler. -/
def runInboxExceptChain (status : Option String)
    (body : Except InboxExc InboxMessagesResponse) : EndpointOutcome :=
  match body with
  | .ok r => .ok r
  | .error (.valueErr m) =>
      match statusParamGetattr status "HTTP_404_NOT_FOUND" with
      | .ok code => .httpError code m
      | .error a => .uncaughtExc ("AttributeError: " ++ a)
  | .error e =>
      match statusParamGetattr status "HTTP_500_INTERNAL_SERVER_ERROR" with
      | .ok code =>
          .httpError code ("Failed to get inbox messages: " ++ e.text)
      | .error a => .uncaughtExc ("AttributeError: " ++ a)

/-- Shallow embedding of `get_inbox_messages_endpoint` (`api/main.py`, lines
1069-1135). -/
def get_inbox_messages_endpoint (terminal_id : String) (status : Option String)
    (limit : Int)
    (db : Option MessageStatus → Int → Except InboxExc (List DbInboxMsg)) :
    EndpointOutcome :=
  runInboxExceptChain status (inboxEndpointBody terminal_id status limit db)

/-- A flow definition as returned by `flow_service.get_flows_to_run`. -/
structure FlowDef where
  name : String
deriving DecidableEq, Repr

/-- One iteration environment of the flow daemon: the result of
`get_flows_to_run` (which may raise) and, per flow name, the result of
`execute_flow` (`.ok b` = returned `b`, `.error e` = raised `e`). -/
structure FlowTick where
  flows : Except String (List FlowDef)
  exec : String → Except String Bool

/-- Externally visible events of the flow daemon loop. -/
inductive FlowEvent
  | execCall (name : String) (result : Except String Bool)
  | fetchFailed (text : String)
  | sleepFor (secs : Nat)
deriving Repr

/-- The per-flow loop body of `flow_daemon` (`api/main.py`, lines 108-116):
each flow's `execute_flow` call sits in its own `try`/`except`, whose handler
only logs, so the iteration over the remaining flows continues whatever the
result of each call is. -/
def runEligibleFlows (fs : List FlowDef) (exec : String → Except String Bool) :
    List FlowEvent :=
  fs.map (fun f => .execCall f.name (exec f.name))

/-- One iteration of the `while True` loop of `flow_daemon` (`api/main.py`,
lines 105-120): fetch the eligible flows (a raised exception is caught and
logged by the outer `try`), run each exactly once, then
`await asyncio.sleep(60)`. -/
def flow_daemon_tick (t : FlowTick) : List FlowEvent :=
  (match t.flows with
   | .ok fs => runEligibleFlows fs t.exec
   | .error e => [.fetchFailed e]) ++ [.sleepFor 60]

/-- The event trace of the first `n` iterations of the daemon loop, given the
stream of per-iteration environments.  The loop has no exit path, so the
trace is defined for every `n`. -/
def flow_daemon_trace (ticks : Nat → FlowTick) : Nat → List FlowEvent
  | 0 => []
  | n + 1 => flow_daemon_trace ticks n ++ flow_daemon_tick (ticks n)

/-- The flow names of the `execute_flow` invocations in a daemon event list. -/
def execCallNames (es : List FlowEvent) : List String :=
  es.filterMap (fun e =>
    match e with
    | .execCall n _ => some n
    | _ => none)

/-- The number of `asyncio.sleep(60)` suspensions in a daemon event list. -/
def sleepCount (es : List FlowEvent) : Nat :=
  es.countP (fun e =>
    match e with
    | .sleepFor _ => true
    | _ => false)

/-- Arguments of the `terminal_service.create_terminal` call made by
`_initialize_session_background` (`api/main.py`, lines 819-825): provider,
agent profile, session name, and the `new_session` flag — the function's
whole parameter list; there is no terminal-id argument. -/
structure CreateTerminalArgs where
  provider : String
  agent_profile : String
  session_name : String
  new_session : Bool
deriving DecidableEq, Repr

/-- The 202 response body of `POST /sessions` (`api/main.py`, lines 782-789). -/
structure SessionAcceptedResponse where
  status : String
  session_name : String
  terminal_id : String
  provider : String
  agent_profile : String
  message : String
deriving DecidableEq, Repr

/-- The generated values used by `create_session`: the result of
`generate_terminal_id()` and of `generate_session_name()`. -/
structure CreateSessionEnv where
  genId : String
  genName : String
deriving DecidableEq, Repr

/-- `session_name.startswith(SESSION_PREFIX)` with `SESSION_PREFIX = "tron-"`
(`constants.py`), computed over the character lists. -/
def startsWithTron (s : String) : Bool :=
  ("tron-" : String).data.isPrefixOf s.data

/-- Shallow embedding of `create_session` (`api/main.py`, lines 762-799)
together with the argument record of the background
`terminal_service.create_terminal` call started by
`_initialize_session_background` (lines 809-834).  The response is built and
returned (202) before that background call runs; the freshly generated
`terminal_id` appears only in the response, not among the call's
arguments. -/
def create_session (provider agent_profile : String)
    (session_name : Option String) (env : CreateSessionEnv) :
    SessionAcceptedResponse × CreateTerminalArgs :=
  let terminal_id := env.genId
  let name0 := if pyTruthy session_name then session_name.getD "" else env.genName
  let sname := if startsWithTron name0 then name0 else "tron-" ++ name0
  ({ status := "initializing",
     session_name := sname,
     terminal_id := terminal_id,
     provider := provider,
     agent_profile := agent_profile,
     message := "Session creation started. Terminal is initializing in the background." },
   { provider := provider,
     agent_profile := agent_profile,
     session_name := sname,
     new_session := true })

/-- The id of the terminal actually created by the background call, given an
allocator modelling the id generation inside `terminal_service.create_terminal`
(a function of the call's arguments only). -/
def backgroundCreatedId (alloc : CreateTerminalArgs → String)
    (args : CreateTerminalArgs) : String :=
  alloc args

/-- A concrete two-flow tick stream used to witness the daemon properties:
fetching succeeds every tick, flow "f1" raises, flow "f2" executes. -/
def sampleFlowTicks : Nat → FlowTick :=
  fun _ =>
    { flows := Except.ok [{ name := "f1" }, { name := "f2" }],
      exec := fun nm => if nm = "f1" then Except.error "boom" else Except.ok true }


theorem string_append_ne_empty (a b : String) (h : 0 < a.length) :
    a ++ b ≠ "" := by
  intro he
  have h2 := congrArg String.length he
  rw [String.length_append] at h2
  have h3 : ("" : String).length = 0 := by decide
  rw [h3] at h2
  omega

/-- C3 (confirmed): when the created terminal never reaches IDLE within the
30 s readiness bound, the handoff response has `success=false`, a message
containing the substring "did not reach IDLE status", and a non-null
`terminal_id` (equal to the created terminal's id). -/
theorem handoff_idle_timeout_response (req : HandoffRequest) (env : HandoffEnv)
    (tid provider : String) (hc : env.create = .ok tid provider)
    (hi : env.idleReached = false) :
    (handoff_agent req env).1.success = false
  ∧ (∃ pre post, (handoff_agent req env).1.message
      = pre ++ "did not reach IDLE status" ++ post)
  ∧ (handoff_agent req env).1.terminal_id ≠ none
  ∧ (handoff_agent req env).1.terminal_id = some tid := by
  obtain ⟨cr, idle, send, comp, ro, ex, t⟩ := env
  simp only at hc hi
  subst hc
  subst hi
  refine ⟨rfl, ⟨"Terminal " ++ tid ++ " ", " within 30 seconds", ?_⟩, by simp [handoff_agent], rfl⟩
  show "Terminal " ++ tid ++ " did not reach IDLE status within 30 seconds"
      = "Terminal " ++ tid ++ " " ++ "did not reach IDLE status" ++ " within 30 seconds"
  rw [String.append_assoc ("Terminal " ++ tid), String.append_assoc ("Terminal " ++ tid)]
  congr 1

/-- Witness for C3: a concrete handoff whose terminal stays INITIALIZING. -/
theorem handoff_idle_timeout_response_witness :
    (handoff_agent ⟨"developer", "task", 600⟩
        ⟨.ok "t7" "kiro", false, none, false, .ok "", none, "0.10"⟩).1.success = false
  ∧ (∃ pre post, (handoff_agent ⟨"developer", "task", 600⟩
        ⟨.ok "t7" "kiro", false, none, false, .ok "", none, "0.10"⟩).1.message
      = pre ++ "did not reach IDLE status" ++ post)
  ∧ (handoff_agent ⟨"developer", "task", 600⟩
        ⟨.ok "t7" "kiro", false, none, false, .ok "", none, "0.10"⟩).1.terminal_id ≠ none
  ∧ (handoff_agent ⟨"developer", "task", 600⟩
        ⟨.ok "t7" "kiro", false, none, false, .ok "", none, "0.10"⟩).1.terminal_id = some "t7" :=
  handoff_idle_timeout_response _ _ "t7" "kiro" rfl rfl

/-- C1 (corrected) counterexample: a handoff whose read-output stage fails
(the output request raises "boom") still returns `success = true` — the
failure is caught locally and only replaces the output text — refuting the
claim that every post-creation stage failure yields `success = false`. -/
theorem handoff_read_failure_counterexample :
    ((⟨.ok "t1" "kiro", true, none, true, .error "boom", none, "1.00"⟩ : HandoffEnv).readOutput
        = .error "boom")
  ∧ (handoff_agent ⟨"developer", "task", 600⟩
        ⟨.ok "t1" "kiro", true, none, true, .error "boom", none, "1.00"⟩).1.success = true
  ∧ (handoff_agent ⟨"developer", "task", 600⟩
        ⟨.ok "t1" "kiro", true, none, true, .error "boom", none, "1.00"⟩).1.output
      = some "Failed to retrieve output: boom" :=
  ⟨rfl, rfl, rfl⟩

/-- C1 (corrected), amended: once a terminal is allocated, the handoff
response's `terminal_id` is always that terminal's id (never nulled, on every
path); the response has `success = false` exactly when the IDLE wait, the
input send, or the COMPLETED wait fails — read-output and exit-command
failures are caught and leave `success = true` — and the message is always
non-empty (descriptive). -/
theorem handoff_stage_failures_amended (req : HandoffRequest) (env : HandoffEnv)
    (tid provider : String) (hc : env.create = .ok tid provider) :
    (handoff_agent req env).1.terminal_id = some tid
  ∧ (handoff_agent req env).1.success
      = (env.idleReached && env.sendInput.isNone && env.completedReached)
  ∧ (handoff_agent req env).1.message ≠ "" := by
  obtain ⟨cr, idle, send, comp, ro, ex, t⟩ := env
  simp only at hc
  subst hc
  cases idle with
  | false =>
      refine ⟨rfl, rfl, ?_⟩
      show "Terminal " ++ tid ++ " did not reach IDLE status within 30 seconds" ≠ ""
      rw [String.append_assoc]
      exact string_append_ne_empty _ _ (by decide)
  | true =>
      cases send with
      | some e =>
          exact ⟨rfl, rfl, string_append_ne_empty "Handoff failed: " e (by decide)⟩
      | none =>
          cases comp with
          | false =>
              refine ⟨rfl, rfl, ?_⟩
              show "Handoff timed out after " ++ toString req.timeout ++ " seconds" ≠ ""
              rw [String.append_assoc]
              exact string_append_ne_empty _ _ (by decide)
          | true =>
              refine ⟨rfl, rfl, ?_⟩
              show "Successfully handed off to " ++ req.agent_profile ++ " (" ++ provider
                  ++ ") in " ++ t ++ "s" ≠ ""
              rw [String.append_assoc, String.append_assoc, String.append_assoc,
                String.append_assoc, String.append_assoc]
              exact string_append_ne_empty _ _ (by decide)

/-- Witness for the amended C1: a concrete handoff whose input send raises;
the failure response still carries the allocated terminal id. -/
theorem handoff_stage_failures_amended_witness :
    (handoff_agent ⟨"developer", "task", 600⟩
        ⟨.ok "t2" "kiro", true, some "injection failed", false, .ok "", none, "0.10"⟩).1.terminal_id
      = some "t2"
  ∧ (handoff_agent ⟨"developer", "task", 600⟩
        ⟨.ok "t2" "kiro", true, some "injection failed", false, .ok "", none, "0.10"⟩).1.success
      = ((⟨.ok "t2" "kiro", true, some "injection failed", false, .ok "", none, "0.10"⟩ : HandoffEnv).idleReached
         && (⟨.ok "t2" "kiro", true, some "injection failed", false, .ok "", none, "0.10"⟩ : HandoffEnv).sendInput.isNone
         && (⟨.ok "t2" "kiro", true, some "injection failed", false, .ok "", none, "0.10"⟩ : HandoffEnv).completedReached)
  ∧ (handoff_agent ⟨"developer", "task", 600⟩
        ⟨.ok "t2" "kiro", true, some "injection failed", false, .ok "", none, "0.10"⟩).1.message ≠ "" :=
  handoff_stage_failures_amended _ _ "t2" "kiro" rfl

/-- C2 (confirmed): every successful handoff performed exactly the chain
create (≤30 s), wait IDLE (≤30 s), fixed 2 s settle sleep, send the request
message, wait COMPLETED (≤`timeout`, polling every 1 s), read output in
"last" mode, send the provider exit command — in that order — and its
response carries `success`, a message, an output and a terminal id. -/
theorem handoff_success_chain (req : HandoffRequest) (env : HandoffEnv)
    (h : (handoff_agent req env).1.success = true) :
    (handoff_agent req env).2
      = [HStep.createT 30, HStep.waitStatus .idle 30 none, HStep.sleepStep 2,
         HStep.sendInputStep req.message,
         HStep.waitStatus .completed req.timeout (some 1),
         HStep.readOutputStep "last", HStep.exitCommandStep]
  ∧ (handoff_agent req env).1.output.isSome = true
  ∧ (handoff_agent req env).1.terminal_id.isSome = true := by
  obtain ⟨cr, idle, send, comp, ro, ex, t⟩ := env
  cases cr with
  | timeoutErr => simp [handoff_agent] at h
  | raised e => simp [handoff_agent] at h
  | ok tid provider =>
      cases idle with
      | false => simp [handoff_agent] at h
      | true =>
          cases send with
          | some e => simp [handoff_agent] at h
          | none =>
              cases comp with
              | false => simp [handoff_agent] at h
              | true => exact ⟨rfl, rfl, rfl⟩

/-- Witness for C2: a concrete successful handoff. -/
theorem handoff_success_chain_witness :
    (handoff_agent ⟨"developer", "task", 600⟩
        ⟨.ok "t3" "kiro", true, none, true, .ok "result text", none, "5.00"⟩).2
      = [HStep.createT 30, HStep.waitStatus .idle 30 none, HStep.sleepStep 2,
         HStep.sendInputStep (⟨"developer", "task", 600⟩ : HandoffRequest).message,
         HStep.waitStatus .completed (⟨"developer", "task", 600⟩ : HandoffRequest).timeout (some 1),
         HStep.readOutputStep "last", HStep.exitCommandStep]
  ∧ (handoff_agent ⟨"developer", "task", 600⟩
        ⟨.ok "t3" "kiro", true, none, true, .ok "result text", none, "5.00"⟩).1.output.isSome = true
  ∧ (handoff_agent ⟨"developer", "task", 600⟩
        ⟨.ok "t3" "kiro", true, none, true, .ok "result text", none, "5.00"⟩).1.terminal_id.isSome = true :=
  handoff_success_chain _ _ rfl

/-- C4 (confirmed): `assign` performs only terminal creation (30 s bound)
followed by immediate input injection — its trace never contains a
status-wait step, so it returns without waiting for IDLE or COMPLETED — and
on success the returned `terminal_id` is exactly the id of the terminal the
creation call produced. -/
theorem assign_only_create_then_send (req : AssignRequest) (env : AssignEnv) :
    ((assign_agent req env).2 = [HStep.createT 30]
      ∨ (assign_agent req env).2 = [HStep.createT 30, HStep.sendInputStep req.message])
  ∧ (∀ target bound itv, HStep.waitStatus target bound itv ∉ (assign_agent req env).2)
  ∧ ((assign_agent req env).1.success = true →
      ∃ tid provider, env.create = .ok tid provider
        ∧ (assign_agent req env).1.terminal_id = some tid
        ∧ (assign_agent req env).2 = [HStep.createT 30, HStep.sendInputStep req.message]) := by
  obtain ⟨cr, send⟩ := env
  cases cr with
  | timeoutErr => exact ⟨.inl rfl, by simp [assign_agent], by simp [assign_agent]⟩
  | raised e => exact ⟨.inl rfl, by simp [assign_agent], by simp [assign_agent]⟩
  | ok tid provider =>
      cases send with
      | some e => exact ⟨.inr rfl, by simp [assign_agent], by simp [assign_agent]⟩
      | none =>
          exact ⟨.inr rfl, by simp [assign_agent],
            fun _ => ⟨tid, provider, rfl, rfl, rfl⟩⟩

/-- Witness for C4: a concrete successful assignment. -/
theorem assign_only_create_then_send_witness :
    ((assign_agent ⟨"developer", "task"⟩ ⟨.ok "t4" "kiro", none⟩).2 = [HStep.createT 30]
      ∨ (assign_agent ⟨"developer", "task"⟩ ⟨.ok "t4" "kiro", none⟩).2
          = [HStep.createT 30, HStep.sendInputStep (⟨"developer", "task"⟩ : AssignRequest).message])
  ∧ (∀ target bound itv, HStep.waitStatus target bound itv
      ∉ (assign_agent ⟨"developer", "task"⟩ ⟨.ok "t4" "kiro", none⟩).2)
  ∧ ((assign_agent ⟨"developer", "task"⟩ ⟨.ok "t4" "kiro", none⟩).1.success = true →
      ∃ tid provider, (⟨.ok "t4" "kiro", none⟩ : AssignEnv).create = .ok tid provider
        ∧ (assign_agent ⟨"developer", "task"⟩ ⟨.ok "t4" "kiro", none⟩).1.terminal_id = some tid
        ∧ (assign_agent ⟨"developer", "task"⟩ ⟨.ok "t4" "kiro", none⟩).2
            = [HStep.createT 30, HStep.sendInputStep (⟨"developer", "task"⟩ : AssignRequest).message]) :=
  assign_only_create_then_send ⟨"developer", "task"⟩ ⟨.ok "t4" "kiro", none⟩

/-- C5 (corrected) counterexample: an assign call whose terminal was
allocated ("t1") and whose input injection then raises returns a failure
response with `terminal_id = none` — the allocated id is NOT included,
refuting the claim. -/
theorem assign_sendfail_counterexample :
    ((⟨.ok "t1" "kiro", some "injection failed"⟩ : AssignEnv).create = .ok "t1" "kiro")
  ∧ (assign_agent ⟨"developer", "task"⟩
        ⟨.ok "t1" "kiro", some "injection failed"⟩).1.success = false
  ∧ (assign_agent ⟨"developer", "task"⟩
        ⟨.ok "t1" "kiro", some "injection failed"⟩).1.terminal_id = none :=
  ⟨rfl, rfl, rfl⟩

/-- C5 (corrected), amended: when a terminal was allocated but the input
injection raises, `assign` returns `success=false` with the exception text in
the message and `terminal_id = none` — the outer exception handler hardcodes
a null terminal id, so the allocated id is never included in the failure
result. -/
theorem assign_sendfail_amended (req : AssignRequest) (env : AssignEnv)
    (tid provider e : String) (hc : env.create = .ok tid provider)
    (hs : env.sendInput = some e) :
    (assign_agent req env).1
      = { success := false, terminal_id := none,
          message := "Assignment failed: " ++ e }
  ∧ (assign_agent req env).2 = [HStep.createT 30, HStep.sendInputStep req.message] := by
  obtain ⟨cr, send⟩ := env
  simp only at hc hs
  subst hc
  subst hs
  exact ⟨rfl, rfl⟩

/-- Witness for the amended C5. -/
theorem assign_sendfail_amended_witness :
    (assign_agent ⟨"developer", "task"⟩ ⟨.ok "t5" "kiro", some "boom"⟩).1
      = { success := false, terminal_id := none,
          message := "Assignment failed: " ++ "boom" }
  ∧ (assign_agent ⟨"developer", "task"⟩ ⟨.ok "t5" "kiro", some "boom"⟩).2
      = [HStep.createT 30, HStep.sendInputStep (⟨"developer", "task"⟩ : AssignRequest).message] :=
  assign_sendfail_amended _ _ "t5" "kiro" "boom" rfl rfl

/-- C6 (confirmed): a send-message call performs one inbox enqueue (with the
resolved sender) immediately followed by one delivery attempt for the
receiver — the trace is exactly that pair whenever the enqueue persists a row
— and the response is either the full message metadata (success with id,
sender, receiver, creation time) or a structured error with `success=false`
and an `error` field. -/
theorem send_message_enqueue_then_deliver (req : SendMessageRequest)
    (env : SendMessageEnv) :
    (∀ row, env.createMsg = .ok row →
      (send_message_to_agent req env).2
        = [MStep.enqueue (resolveSender req.sender_id env.tronTerminalId)
             req.receiver_id req.message,
           MStep.deliverAttempt req.receiver_id])
  ∧ ((send_message_to_agent req env).1.success = true →
      ∃ row, env.createMsg = .ok row
        ∧ (send_message_to_agent req env).1
            = { success := true, message_id := some row.id,
                sender_id := some row.sender_id,
                receiver_id := some row.receiver_id,
                created_at := some row.created_at, error := none })
  ∧ ((send_message_to_agent req env).1.success = false →
      (send_message_to_agent req env).1.error.isSome = true) := by
  obtain ⟨tron, createMsg, deliver⟩ := env
  cases createMsg with
  | error e =>
      cases e with
      | valueError t => exact ⟨by simp [send_message_to_agent], by simp [send_message_to_agent], fun _ => rfl⟩
      | otherExc t => exact ⟨by simp [send_message_to_agent], by simp [send_message_to_agent], fun _ => rfl⟩
  | ok row =>
      cases deliver with
      | some e =>
          cases e with
          | valueError t => exact ⟨fun _ _ => rfl, by simp [send_message_to_agent], fun _ => rfl⟩
          | otherExc t => exact ⟨fun _ _ => rfl, by simp [send_message_to_agent], fun _ => rfl⟩
      | none =>
          exact ⟨fun _ _ => rfl, fun _ => ⟨row, rfl, rfl⟩, by simp [send_message_to_agent]⟩

/-- Witness for C6: a concrete delivered message. -/
theorem send_message_enqueue_then_deliver_witness :
    (∀ row, (⟨some "sender1", .ok ⟨7, "sender1", "recv1", "2025-01-01T00:00:00"⟩, none⟩ : SendMessageEnv).createMsg = .ok row →
      (send_message_to_agent ⟨"recv1", "hello", none⟩
          ⟨some "sender1", .ok ⟨7, "sender1", "recv1", "2025-01-01T00:00:00"⟩, none⟩).2
        = [MStep.enqueue (resolveSender (⟨"recv1", "hello", none⟩ : SendMessageRequest).sender_id
             (⟨some "sender1", .ok ⟨7, "sender1", "recv1", "2025-01-01T00:00:00"⟩, none⟩ : SendMessageEnv).tronTerminalId)
             (⟨"recv1", "hello", none⟩ : SendMessageRequest).receiver_id
             (⟨"recv1", "hello", none⟩ : SendMessageRequest).message,
           MStep.deliverAttempt (⟨"recv1", "hello", none⟩ : SendMessageRequest).receiver_id])
  ∧ ((send_message_to_agent ⟨"recv1", "hello", none⟩
        ⟨some "sender1", .ok ⟨7, "sender1", "recv1", "2025-01-01T00:00:00"⟩, none⟩).1.success = true →
      ∃ row, (⟨some "sender1", .ok ⟨7, "sender1", "recv1", "2025-01-01T00:00:00"⟩, none⟩ : SendMessageEnv).createMsg = .ok row
        ∧ (send_message_to_agent ⟨"recv1", "hello", none⟩
              ⟨some "sender1", .ok ⟨7, "sender1", "recv1", "2025-01-01T00:00:00"⟩, none⟩).1
            = { success := true, message_id := some row.id,
                sender_id := some row.sender_id,
                receiver_id := some row.receiver_id,
                created_at := some row.created_at, error := none })
  ∧ ((send_message_to_agent ⟨"recv1", "hello", none⟩
        ⟨some "sender1", .ok ⟨7, "sender1", "recv1", "2025-01-01T00:00:00"⟩, none⟩).1.success = false →
      (send_message_to_agent ⟨"recv1", "hello", none⟩
          ⟨some "sender1", .ok ⟨7, "sender1", "recv1", "2025-01-01T00:00:00"⟩, none⟩).1.error.isSome = true) :=
  send_message_enqueue_then_deliver _ _

/-- C7 (corrected) counterexample: the synchronous agent-tools `send_message`
wrapper, called with an explicit sender id and no pre-existing
`TRON_TERMINAL_ID`, passes the sender identity to the nested call by setting
the process-wide environment variable and then deleting it — a call path
that mutates process-wide state to pass the sender identity, refuting the
"never mutated process-wide" part of the claim. -/
theorem tools_send_message_mutation_counterexample :
    (tools_send_message_env (some "s1") none).mutations
      = [EnvMutation.setVar "s1", EnvMutation.delVar]
  ∧ (tools_send_message_env (some "s1") none).mutations ≠ []
  ∧ (tools_send_message_env (some "s1") none).senderSeenByCall = some "s1" := by
  refine ⟨?_, ?_, ?_⟩ <;> decide

/-- C7 (corrected), amended: the sender identity resolves as the explicitly
supplied `sender_id` when present (and non-empty), else the ambient
`TRON_TERMINAL_ID` from the execution context, else the `"unknown"`
sentinel; however, the synchronous agent-tools wrapper passes an explicit
sender id by temporarily mutating the process-wide `TRON_TERMINAL_ID`
environment variable (the nested call sees exactly that id, at least one
mutation is performed, and a truthy pre-existing value is restored in the
`finally` block). -/
theorem sender_identity_amended :
    (∀ s envVar, s ≠ "" → resolveSender (some s) envVar = s)
  ∧ (∀ v, v ≠ "" → resolveSender none (some v) = v)
  ∧ resolveSender none none = "unknown"
  ∧ (∀ sid initVar, sid ≠ "" →
      (tools_send_message_env (some sid) initVar).senderSeenByCall = some sid
      ∧ (tools_send_message_env (some sid) initVar).mutations ≠ []
      ∧ (pyTruthy initVar = true →
          (tools_send_message_env (some sid) initVar).finalVar = initVar)) := by
  refine ⟨?_, ?_, rfl, ?_⟩
  · intro s envVar h
    have hb : (s != "") = true := by simpa using h
    simp [resolveSender, pyTruthy, hb]
  · intro v h
    have hb : (v != "") = true := by simpa using h
    simp [resolveSender, pyTruthy, hb]
  · intro sid initVar h
    have hb : (sid != "") = true := by simpa using h
    cases initVar with
    | none =>
        refine ⟨?_, ?_, ?_⟩
        · simp [tools_send_message_env, pyTruthy, hb]
        · simp [tools_send_message_env, pyTruthy, hb]
        · intro hinit
          simp [pyTruthy] at hinit
    | some v =>
        by_cases hv : v = ""
        · subst hv
          refine ⟨?_, ?_, ?_⟩
          · simp [tools_send_message_env, pyTruthy, hb]
          · simp [tools_send_message_env, pyTruthy, hb]
          · intro hinit
            simp [pyTruthy] at hinit
        · have hvb : (v != "") = true := by simpa using hv
          refine ⟨?_, ?_, ?_⟩
          · simp [tools_send_message_env, pyTruthy, hb, hvb]
          · simp [tools_send_message_env, pyTruthy, hb, hvb]
          · intro hinit
            simp [tools_send_message_env, pyTruthy, hb, hvb]

/-- Witness for the amended C7: explicit sender "w1", ambient value "w0". -/
theorem sender_identity_amended_witness :
    resolveSender (some "w1") (some "w0") = "w1"
  ∧ (tools_send_message_env (some "w1") (some "w0")).senderSeenByCall = some "w1"
  ∧ (tools_send_message_env (some "w1") (some "w0")).mutations ≠ []
  ∧ (tools_send_message_env (some "w1") (some "w0")).finalVar = some "w0" := by
  have h := sender_identity_amended
  have h1 := h.1 "w1" (some "w0") (by decide)
  have h4 := h.2.2.2 "w1" (some "w0") (by decide)
  exact ⟨h1, h4.1, h4.2.1, h4.2.2 (by decide)⟩

/-- C8 (code_bug): evaluating the inbox-listing endpoint at the failing input
`status="bogus"` — the handler parameter `status` shadows the `fastapi.status`
module, so the intended 400 `HTTPException` construction raises
`AttributeError`, the generic handler's own `status.HTTP_500_...` lookup
raises again, and the exception escapes: the framework answers 500, not the
claimed 400.  The limit clamp itself behaves as claimed: the database is
queried with `min(max(1, limit), 100)`, so `limit=150` queries 100 and
`limit=0` queries 1. -/
theorem inbox_invalid_status_is_500_not_400 :
    get_inbox_messages_endpoint "t1" (some "bogus") 10 (fun _ _ => .ok [])
      = .uncaughtExc ("AttributeError: "
          ++ "str object has no attribute HTTP_500_INTERNAL_SERVER_ERROR")
  ∧ httpStatusOf (get_inbox_messages_endpoint "t1" (some "bogus") 10 (fun _ _ => .ok [])) = 500
  ∧ httpStatusOf (get_inbox_messages_endpoint "t1" (some "bogus") 10 (fun _ _ => .ok [])) ≠ 400
  ∧ clampLimit 150 = 100
  ∧ clampLimit 0 = 1
  ∧ (∀ db : Option MessageStatus → Int → Except InboxExc (List DbInboxMsg),
      db (some .pending) 100 = .ok [] →
        inboxEndpointBody "t1" (some "pending") 150 db
          = .ok { messages := [], total := 0, receiver_id := "t1" })
  ∧ (∀ db : Option MessageStatus → Int → Except InboxExc (List DbInboxMsg),
      db none 1 = .ok [] →
        inboxEndpointBody "t1" none 0 db
          = .ok { messages := [], total := 0, receiver_id := "t1" }) := by
  refine ⟨by decide, by decide, by decide, by decide, by decide, ?_, ?_⟩
  · intro db hdb
    have hbody : inboxEndpointBody "t1" (some "pending") 150 db
        = match db (some MessageStatus.pending) 100 with
          | Except.error e => Except.error e
          | Except.ok msgs =>
              Except.ok { messages := msgs, total := msgs.length, receiver_id := "t1" } := rfl
    rw [hbody, hdb]
    rfl
  · intro db hdb
    have hbody : inboxEndpointBody "t1" none 0 db
        = match db none 1 with
          | Except.error e => Except.error e
          | Except.ok msgs =>
              Except.ok { messages := msgs, total := msgs.length, receiver_id := "t1" } := rfl
    rw [hbody, hdb]
    rfl

theorem execCallNames_append (a b : List FlowEvent) :
    execCallNames (a ++ b) = execCallNames a ++ execCallNames b :=
  List.filterMap_append a b _

theorem sleepCount_append (a b : List FlowEvent) :
    sleepCount (a ++ b) = sleepCount a + sleepCount b :=
  List.countP_append _ a b

theorem execCallNames_runEligibleFlows (fs : List FlowDef)
    (exec : String → Except String Bool) :
    execCallNames (runEligibleFlows fs exec) = fs.map FlowDef.name := by
  induction fs with
  | nil => rfl
  | cons f rest ih =>
      simp only [runEligibleFlows, List.map_cons, execCallNames,
        List.filterMap_cons] at ih ⊢
      exact congrArg (f.name :: ·) ih

theorem sleepCount_runEligibleFlows (fs : List FlowDef)
    (exec : String → Except String Bool) :
    sleepCount (runEligibleFlows fs exec) = 0 := by
  induction fs with
  | nil => rfl
  | cons f rest ih =>
      simp only [runEligibleFlows, sleepCount, List.map_cons,
        List.countP_cons] at ih ⊢
      simp [ih]

theorem sleepCount_flow_daemon_tick (t : FlowTick) :
    sleepCount (flow_daemon_tick t) = 1 := by
  obtain ⟨flows, exec⟩ := t
  cases flows with
  | ok fs =>
      simp only [flow_daemon_tick, sleepCount_append, sleepCount_runEligibleFlows]
      decide
  | error e =>
      simp only [flow_daemon_tick, sleepCount_append]
      simp [sleepCount, List.countP_cons]

theorem sleepCount_flow_daemon_trace (ticks : Nat → FlowTick) (n : Nat) :
    sleepCount (flow_daemon_trace ticks n) = n := by
  induction n with
  | zero => rfl
  | succ m ih =>
      rw [flow_daemon_trace, sleepCount_append, ih, sleepCount_flow_daemon_tick]

/-- C9 (confirmed): on a tick whose fetch returns the eligible flows `fs`, the
daemon invokes `execute_flow` exactly once per eligible flow, in list order,
whatever each invocation's outcome (raising included) — the per-flow
`try`/`except` keeps the iteration going — the tick always ends with the
fixed 60 s sleep, the trace of `n+1` iterations extends the trace of `n`
(one failing tick or flow never stops the loop), and every run of `n`
iterations performs exactly `n` sleeps. -/
theorem flow_daemon_properties (ticks : Nat → FlowTick) (n : Nat)
    (fs : List FlowDef) (h : (ticks n).flows = .ok fs) :
    execCallNames (flow_daemon_tick (ticks n)) = fs.map FlowDef.name
  ∧ (flow_daemon_tick (ticks n)).getLast? = some (.sleepFor 60)
  ∧ flow_daemon_trace ticks (n + 1)
      = flow_daemon_trace ticks n ++ flow_daemon_tick (ticks n)
  ∧ sleepCount (flow_daemon_trace ticks (n + 1)) = n + 1 := by
  refine ⟨?_, ?_, rfl, sleepCount_flow_daemon_trace ticks (n + 1)⟩
  · rw [flow_daemon_tick, h, execCallNames_append,
      execCallNames_runEligibleFlows]
    simp [execCallNames]
  · rw [flow_daemon_tick]
    exact List.getLast?_concat _

/-- Witness for C9: the sample stream where flow "f1" raises on every tick;
both flows are still executed once per tick and the loop keeps ticking. -/
theorem flow_daemon_properties_witness :
    execCallNames (flow_daemon_tick (sampleFlowTicks 1))
      = ([{ name := "f1" }, { name := "f2" }] : List FlowDef).map FlowDef.name
  ∧ (flow_daemon_tick (sampleFlowTicks 1)).getLast? = some (.sleepFor 60)
  ∧ flow_daemon_trace sampleFlowTicks (1 + 1)
      = flow_daemon_trace sampleFlowTicks 1 ++ flow_daemon_tick (sampleFlowTicks 1)
  ∧ sleepCount (flow_daemon_trace sampleFlowTicks (1 + 1)) = 1 + 1 :=
  flow_daemon_properties sampleFlowTicks 1 [{ name := "f1" }, { name := "f2" }] rfl

/-- C10 (confirmed): the `terminal_id` of the 202 response of
`POST /sessions` is the value generated up front by `generate_terminal_id()`;
the background `terminal_service.create_terminal` call receives only
provider, agent profile, session name and the `new_session` flag — its
arguments are the same whatever id was generated, so the id is never passed
to it — and there is an admissible id allocation under which the terminal
actually created has a different id than the one returned. -/
theorem create_session_id_not_guaranteed (provider agent_profile : String)
    (session_name : Option String) (env : CreateSessionEnv) :
    (create_session provider agent_profile session_name env).1.terminal_id = env.genId
  ∧ (∀ gid gid2 gname,
      (create_session provider agent_profile session_name ⟨gid, gname⟩).2
        = (create_session provider agent_profile session_name ⟨gid2, gname⟩).2)
  ∧ ∃ alloc : CreateTerminalArgs → String,
      backgroundCreatedId alloc (create_session provider agent_profile session_name env).2
        ≠ (create_session provider agent_profile session_name env).1.terminal_id := by
  refine ⟨rfl, fun gid gid2 gname => rfl, ⟨fun _ => env.genId ++ "x", ?_⟩⟩
  intro hgoal
  have hgoal2 : env.genId ++ "x" = env.genId := hgoal
  have h2 := congrArg String.length hgoal2
  rw [String.length_append] at h2
  have h3 : ("x" : String).length = 1 := by decide
  rw [h3] at h2
  omega
